import Mathlib

/-!
Shallow embedding of the learn-node HTTP microservice.

Source of truth: src/main.ts (the unified TypeScript server; the pre-migration
src/main.js variant is noted in comments where the two differ).  A handled
request is modelled as a pure value: the response (status code, headers,
structured body) together with the list of metric events the handler records.
Platform collaborators enter as parameters:
  * JSON.parse is a `String → Option Json` argument (throwing = `none`);
  * the write-time clock (new Date().toISOString()) is a `now : String` argument;
  * prom-client's registry serialization and content type are fields of `Config`;
  * process introspection (uptime, memory, cpuUsage, platform, ...) is an `Env`
    record sampled when the handler runs.
Console logging is a side effect with no observable contract in the source and
is not modelled.
-/

namespace LearnNode

/-- JSON values: what `JSON.parse` can produce and what handlers build.
Numeric literals are modelled as integers; floating point is out of scope, and
no claim computes with a number. -/
inductive Json where
  | null
  | bool (b : Bool)
  | num (n : Int)
  | str (s : String)
  | arr (elems : List Json)
  | obj (fields : List (String × Json))

/-- Field access on a JSON object (first binding wins, as in a JS object literal). -/
def Json.lookupField : Json → String → Option Json
  | Json.obj fields, key => (fields.find? (fun f => f.fst == key)).map (fun f => f.snd)
  | _, _ => none

/-- The `ApiResponse` envelope of src/main.ts lines 48–54.  `data`, `message`
and `details` are optional fields of the TypeScript interface; an outer `none`
means the field is absent from the serialized object, and `details := some none`
means the field is present with JSON `null`. -/
structure ApiResponse where
  success : Bool
  data : Option Json
  message : Option String
  details : Option (Option String)
  timestamp : String

/-- A response body: empty (`res.end()`), plain text (`/ping`, `/metrics`
serialization), or a JSON envelope (`JSON.stringify` of an `ApiResponse` is the
platform's serialization and is not re-modelled). -/
inductive Body where
  | empty
  | text (s : String)
  | json (e : ApiResponse)

/-- The observable response: status code, accumulated headers (in the order
`setHeader`/`writeHead` adds them), and the body passed to `res.end`. -/
structure Response where
  statusCode : Nat
  headers : List (String × String)
  body : Body

/-- Envelope written by `sendSuccess` (main.ts 114–123): `{success: true, data,
timestamp}` — no `message`, no `details`. -/
def successEnvelope (now : String) (d : Json) : ApiResponse :=
  { success := true, data := some d, message := none, details := none, timestamp := now }

/-- Envelope written by `sendError` (main.ts 125–135): `{success: false,
message, details, timestamp}` — no `data`; `details` may be JSON `null`. -/
def errorEnvelope (now : String) (message : String) (details : Option String) : ApiResponse :=
  { success := false, data := none, message := some message, details := some details,
    timestamp := now }

/-- Builder `sendSuccess(res, data, statusCode)` (main.ts 114–123): sets the status,
adds `Content-Type: application/json`, and ends with the success envelope.
`hdrs` are the headers already set on `res` when the builder is called. -/
def sendSuccess (hdrs : List (String × String)) (now : String) (d : Json)
    (statusCode : Nat) : Response :=
  { statusCode := statusCode,
    headers := hdrs ++ [("Content-Type", "application/json")],
    body := Body.json (successEnvelope now d) }

/-- Builder `sendError(res, statusCode, message, details)` (main.ts 125–135). -/
def sendError (hdrs : List (String × String)) (now : String) (statusCode : Nat)
    (message : String) (details : Option String) : Response :=
  { statusCode := statusCode,
    headers := hdrs ++ [("Content-Type", "application/json")],
    body := Body.json (errorEnvelope now message details) }

/-- The three headers `applyMiddleware` sets unconditionally (main.ts 138–142),
in source order. -/
def securityHeaders : List (String × String) :=
  [("X-Content-Type-Options", "nosniff"),
   ("X-Frame-Options", "DENY"),
   ("X-XSS-Protection", "1; mode=block")]

/-- Characters of a URL before the first `?` or `#`. -/
def pathChars : List Char → List Char
  | [] => []
  | c :: cs => if c = '?' ∨ c = '#' then [] else c :: pathChars cs

/-- Pathname extraction `new URL(req.url, base).pathname` (main.ts 225–226) as used by the
dispatcher: the pathname is the request-target up to the first `?` (query) or
`#` (fragment); no trailing-slash or dot-segment normalization is applied. -/
def pathnameOf (url : String) : String :=
  String.mk (pathChars url.data)

/-- Process-level inputs the handlers read: environment configuration
(main.ts 6–7, 108–112) and the introspection values (`process.uptime()`,
`process.memoryUsage()`, ...) sampled when the handler runs. -/
structure Env where
  envVERSION : Option String
  nodeEnv : Option String
  startTimestamp : String
  uptime : Json
  memory : Json
  cpuUsage : Json
  platform : String
  arch : String
  nodeVersion : String
  port : Nat
  hostname : String

/-- Field `appInfo.version = process.env.VERSION || '0.0.1'` (main.ts 109). -/
def appVersion (env : Env) : String := env.envVERSION.getD "0.0.1"

/-- Field `appInfo.environment = process.env.NODE_ENV || 'development'` (main.ts 110). -/
def appEnvironment (env : Env) : String := env.nodeEnv.getD "development"

/-- The `appInfo` record (main.ts 108–112) as the JSON value handlers embed. -/
def appInfoJson (env : Env) : Json :=
  Json.obj [("version", Json.str (appVersion env)),
            ("environment", Json.str (appEnvironment env)),
            ("timestamp", Json.str env.startTimestamp)]

/-- One entry of the welcome endpoint list (main.ts 152–158). -/
def endpointEntry (path method description : String) : Json :=
  Json.obj [("path", Json.str path), ("method", Json.str method),
            ("description", Json.str description)]

/-- Object `welcomeData` built by the `/` handler (main.ts 148–160). -/
def welcomeData (env : Env) : Json :=
  Json.obj
    [("message", Json.str "Hello World! Welcome to the Learn Node.js Microservice"),
     ("application", appInfoJson env),
     ("endpoints", Json.arr
       [endpointEntry "/" "GET" "Welcome message and API info",
        endpointEntry "/ping" "GET" "Simple ping-pong response",
        endpointEntry "/healthz" "GET" "Health check endpoint",
        endpointEntry "/info" "GET" "Application information",
        endpointEntry "/version" "GET" "Application version information",
        endpointEntry "/echo" "POST" "Echo back the request body",
        endpointEntry "/metrics" "GET" "Prometheus metrics (if enabled)"])]

/-- Object `healthData` built by the `/healthz` handler (main.ts 171–178). -/
def healthData (env : Env) (now : String) : Json :=
  Json.obj [("status", Json.str "healthy"),
            ("uptime", env.uptime),
            ("timestamp", Json.str now),
            ("memory", env.memory),
            ("version", Json.str (appVersion env)),
            ("environment", Json.str (appEnvironment env))]

/-- Object `systemInfo` built by the `/info` handler (main.ts 183–198).  A JS object
field holding `undefined` (here `nodeEnv` when `NODE_ENV` is unset) is dropped
by `JSON.stringify`. -/
def systemInfo (env : Env) : Json :=
  Json.obj
    [("application", appInfoJson env),
     ("system", Json.obj
       [("platform", Json.str env.platform),
        ("arch", Json.str env.arch),
        ("nodeVersion", Json.str env.nodeVersion),
        ("uptime", env.uptime),
        ("memory", env.memory),
        ("cpuUsage", env.cpuUsage)]),
     ("environment", Json.obj
       ((match env.nodeEnv with
         | some s => [("nodeEnv", Json.str s)]
         | none => []) ++
        [("port", Json.num env.port),
         ("hostname", Json.str env.hostname)]))]

/-- Object `versionData` built by the `/version` handler (main.ts 203–207). -/
def versionData (env : Env) : Json :=
  Json.obj [("version", Json.str (appVersion env)),
            ("name", Json.str "learn-node"),
            ("environment", Json.str (appEnvironment env))]

/-- The keys of the `routes` table (main.ts 146–210).  Each constructor stands
for one handler function of the table; `runHandler` gives its body.  Note that
main.ts has no `/echo` entry here (POST /echo is handled inline by the
dispatcher), and src/main.js additionally lacks `/version`. -/
inductive RouteKey where
  | root
  | ping
  | healthz
  | info
  | version
deriving DecidableEq

/-- The handler bodies of the `routes` table (main.ts 146–210).  `hdrs` are the
headers already on the response when the dispatcher invokes the handler. -/
def runHandler (k : RouteKey) (env : Env) (now : String)
    (hdrs : List (String × String)) : Response :=
  match k with
  | RouteKey.root => sendSuccess hdrs now (welcomeData env) 200
  | RouteKey.ping =>
      { statusCode := 200,
        headers := hdrs ++ [("Content-Type", "text/plain")],
        body := Body.text "pong" }
  | RouteKey.healthz => sendSuccess hdrs now (healthData env now) 200
  | RouteKey.info => sendSuccess hdrs now (systemInfo env) 200
  | RouteKey.version => sendSuccess hdrs now (versionData env) 200

/-- The `routes` table of src/main.ts lines 146–210: a static mapping from
exact pathname to handler. -/
def routes : List (String × RouteKey) :=
  [("/", RouteKey.root),
   ("/ping", RouteKey.ping),
   ("/healthz", RouteKey.healthz),
   ("/info", RouteKey.info),
   ("/version", RouteKey.version)]

/-- Lookup `routes[pathname]` (main.ts 248): exact-string lookup in the route table. -/
def routesLookup (pathname : String) : Option RouteKey :=
  (routes.find? (fun entry => entry.fst == pathname)).map (fun entry => entry.snd)

/-- Object `echoData` built on a successful parse in the POST /echo completion
callback (main.ts 270–274). -/
def echoData (parsed : Json) (now : String) : Json :=
  Json.obj [("received", parsed),
            ("timestamp", Json.str now),
            ("message", Json.str "Echo successful")]

/-- Per-request metric labels (main.ts 70, 75): {method, route, status}. -/
structure MetricLabels where
  method : String
  route : String
  status : Nat
deriving DecidableEq

/-- A metric event: `httpRequestsCounter.inc(labels)` or
`httpRequestDuration.observe(labels, seconds)`.  The observed duration is
carried in integer milliseconds (`Date.now() - start`); the source divides by
1000 to report fractional seconds, a unit change that no claim depends on. -/
inductive MetricEvent where
  | inc (l : MetricLabels)
  | observe (l : MetricLabels) (durationMs : Nat)
deriving DecidableEq

/-- The `req.on('end', ...)` completion callback of POST /echo
(main.ts 267–287).  The whole callback body is one try/catch: `JSON.parse`
throwing (modelled by `parse body = none`) and any exception raised later in
the try block (modelled by `fault = true`, covering sendSuccess / logRequest /
counter / histogram calls after a successful parse) both land in the same
catch, which responds `sendError(res, 400, 'Bad Request', 'Invalid JSON in
request body')`.  The success-path `inc`/`observe` calls sit behind the
`if (httpRequestsCounter)` / `if (httpRequestDuration)` null guards of
main.ts 277–282 — both counters are null exactly when the prom-client load
failed, modelled by `metricsOn` — so nothing is recorded in the disabled
state.  The fault is modelled as raised before the metric calls, so a
faulting callback records no events. -/
def echoEnd (parse : String → Option Json) (fault : Bool) (metricsOn : Bool)
    (now : String) (durationMs : Nat) (hdrs : List (String × String))
    (method pathname body : String) :
    Response × List MetricEvent :=
  match parse body with
  | some parsed =>
      if fault then
        (sendError hdrs now 400 "Bad Request" (some "Invalid JSON in request body"), [])
      else
        let l : MetricLabels := { method := method, route := pathname, status := 200 }
        (sendSuccess hdrs now (echoData parsed now) 200,
         if metricsOn then [MetricEvent.inc l, MetricEvent.observe l durationMs] else [])
  | none =>
      (sendError hdrs now 400 "Bad Request" (some "Invalid JSON in request body"), [])

/-- An incoming request as the dispatcher sees it: `req.method`, `req.url`
(the raw request-target), and the concatenated data chunks of the body. -/
structure Request where
  method : String
  url : String
  body : String

/-- The metrics subsystem's startup outcome (main.ts 56–82): whether the
prom-client import succeeded, and the backend-provided serialization
(`promRegistry.metrics()`) and content type (`promClient.register.contentType`)
used when it did. -/
structure Config where
  metricsEnabled : Bool
  metricsBody : String
  promContentType : String

/-- The try/catch around the dynamic prom-client import (main.ts 63–82): a
load failure is caught, leaves the subsystem disabled (`promClient = null`),
and never propagates — initialization is total. -/
def initMetrics (loadResult : Except String Unit) : Bool :=
  match loadResult with
  | Except.ok _ => true
  | Except.error _ => false

/-- The request dispatcher of `createApp` (main.ts 213–304), one request in:
apply middleware, short-circuit OPTIONS, extract the pathname, serve
GET /metrics, dispatch the route table under GET, handle POST /echo via its
completion callback, else 405 for non-GET and 404 for unmatched GET.  Returns
the response together with the metric events recorded for this request. -/
def handleRequest (env : Env) (cfg : Config) (parse : String → Option Json)
    (echoFault : Bool) (now : String) (durationMs : Nat) (req : Request) :
    Response × List MetricEvent :=
  let hdrs := securityHeaders
  if req.method = "OPTIONS" then
    ({ statusCode := 204, headers := hdrs, body := Body.empty }, [])
  else
    let pathname := pathnameOf req.url
    if req.method = "GET" ∧ pathname = "/metrics" then
      if cfg.metricsEnabled then
        let l : MetricLabels := { method := req.method, route := pathname, status := 200 }
        ({ statusCode := 200,
           headers := hdrs ++ [("Content-Type", cfg.promContentType)],
           body := Body.text cfg.metricsBody },
         [MetricEvent.inc l, MetricEvent.observe l durationMs])
      else
        ({ statusCode := 204, headers := hdrs, body := Body.empty }, [])
    else
      let fallback : Response × List MetricEvent :=
        if req.method = "POST" ∧ pathname = "/echo" then
          echoEnd parse echoFault cfg.metricsEnabled now durationMs hdrs
            req.method pathname req.body
        else if ¬ (req.method = "GET") then
          (sendError hdrs now 405 "Method Not Allowed"
            (some ("Method " ++ req.method ++ " is not allowed for this endpoint")), [])
        else
          (sendError hdrs now 404 "Not Found"
            (some ("The endpoint " ++ pathname ++ " does not exist")), [])
      match routesLookup pathname with
      | some k =>
          if req.method = "GET" then
            let r := runHandler k env now hdrs
            let l : MetricLabels :=
              { method := req.method, route := pathname, status := r.statusCode }
            -- inc/observe sit behind the `if (httpRequestsCounter)` /
            -- `if (httpRequestDuration)` null guards of main.ts 251–257;
            -- both are null exactly when the prom-client load failed.
            (r, if cfg.metricsEnabled then
                  [MetricEvent.inc l, MetricEvent.observe l durationMs]
                else [])
          else fallback
      | none => fallback

/-- Metric events accumulated over a sequence of handled requests, in order. -/
def processAll (env : Env) (cfg : Config) (parse : String → Option Json)
    (echoFault : Bool) (now : String) (durationMs : Nat) :
    List Request → List MetricEvent
  | [] => []
  | r :: rs =>
      (handleRequest env cfg parse echoFault now durationMs r).snd ++
        processAll env cfg parse echoFault now durationMs rs

/-- Value of the `http_requests_total` counter at labels `l` after a list of
events: each `inc l` adds one; nothing decrements. -/
def countInc (l : MetricLabels) : List MetricEvent → Nat
  | [] => 0
  | MetricEvent.inc l' :: es => (if l' = l then 1 else 0) + countInc l es
  | MetricEvent.observe _ _ :: es => countInc l es

/-- Modelled from the source: the process-level signal listeners registered by
src/main.ts and src/main.js.  Neither file contains any `process.on(...)`
call; the startup code (main.ts 307–317) only creates the server and calls
`listen`, so the listener list is empty. -/
def processSignalListeners : List String := []

/-- Whether the program installed a handler for the given signal. -/
def handlesSignal (sig : String) : Bool := processSignalListeners.contains sig

/-- A concrete environment used to instantiate theorems with hypotheses. -/
def sampleEnv : Env :=
  { envVERSION := none, nodeEnv := none,
    startTimestamp := "2024-01-01T00:00:00.000Z",
    uptime := Json.num 1, memory := Json.obj [], cpuUsage := Json.obj [],
    platform := "linux", arch := "x64", nodeVersion := "v20.0.0",
    port := 3000, hostname := "0.0.0.0" }

/-- A concrete metrics configuration with the subsystem enabled. -/
def sampleCfg : Config :=
  { metricsEnabled := true, metricsBody := "# HELP http_requests_total Total HTTP requests",
    promContentType := "text/plain; version=0.0.4; charset=utf-8" }

/-- A concrete metrics configuration with the subsystem disabled. -/
def sampleCfgDisabled : Config :=
  { metricsEnabled := false, metricsBody := "", promContentType := "" }

/-! ### Helper lemmas shared by several claim theorems -/

/-- Every route-table handler appends its content type to the headers the
dispatcher passes in. -/
theorem runHandler_headers (k : RouteKey) (env : Env) (now : String)
    (hdrs : List (String × String)) :
    (runHandler k env now hdrs).headers = hdrs ++ [("Content-Type", "application/json")] ∨
    (runHandler k env now hdrs).headers = hdrs ++ [("Content-Type", "text/plain")] := by
  cases k <;> simp [runHandler, sendSuccess]

/-- A route-table handler that produces a JSON body produced it through
`sendSuccess`, so the envelope is a success envelope and the JSON content type
was added. -/
theorem runHandler_json_body (k : RouteKey) (env : Env) (now : String)
    (hdrs : List (String × String)) (e : ApiResponse)
    (hb : (runHandler k env now hdrs).body = Body.json e) :
    (∃ dta, e = successEnvelope now dta) ∧
    (runHandler k env now hdrs).headers = hdrs ++ [("Content-Type", "application/json")] := by
  cases k <;> simp [runHandler, sendSuccess] at hb ⊢ <;> exact ⟨_, hb.symm⟩

/-- Path `/echo` is not a key of the route table. -/
theorem routesLookup_echo_eq : routesLookup "/echo" = none := rfl

/-- Path `/metrics` is not a key of the route table. -/
theorem routesLookup_metrics_eq : routesLookup "/metrics" = none := rfl

/-- Branch reduction: an OPTIONS request short-circuits to 204 with no body
and no metric events. -/
theorem handleRequest_options (env : Env) (cfg : Config) (parse : String → Option Json)
    (fault : Bool) (now : String) (d : Nat) (req : Request)
    (h : req.method = "OPTIONS") :
    handleRequest env cfg parse fault now d req =
      ({ statusCode := 204, headers := securityHeaders, body := Body.empty }, []) := by
  simp [handleRequest, h]

/-- Branch reduction: GET with pathname `/metrics` reaches the metrics branch. -/
theorem handleRequest_metrics (env : Env) (cfg : Config) (parse : String → Option Json)
    (fault : Bool) (now : String) (d : Nat) (req : Request)
    (hm : req.method = "GET") (hp : pathnameOf req.url = "/metrics") :
    handleRequest env cfg parse fault now d req =
      (if cfg.metricsEnabled then
        ({ statusCode := 200,
           headers := securityHeaders ++ [("Content-Type", cfg.promContentType)],
           body := Body.text cfg.metricsBody },
         [MetricEvent.inc { method := "GET", route := "/metrics", status := 200 },
          MetricEvent.observe { method := "GET", route := "/metrics", status := 200 } d])
      else
        ({ statusCode := 204, headers := securityHeaders, body := Body.empty }, [])) := by
  simp [handleRequest, hm, hp]

/-- Branch reduction: a GET whose pathname is in the route table runs that
handler and, when the metrics subsystem is enabled (the counters are
non-null), records one counter increment and one duration observation. -/
theorem handleRequest_routed (env : Env) (cfg : Config) (parse : String → Option Json)
    (fault : Bool) (now : String) (d : Nat) (req : Request) (k : RouteKey)
    (hm : req.method = "GET") (hk : routesLookup (pathnameOf req.url) = some k) :
    handleRequest env cfg parse fault now d req =
      (runHandler k env now securityHeaders,
       if cfg.metricsEnabled then
         [MetricEvent.inc
            { method := "GET", route := pathnameOf req.url,
              status := (runHandler k env now securityHeaders).statusCode },
          MetricEvent.observe
            { method := "GET", route := pathnameOf req.url,
              status := (runHandler k env now securityHeaders).statusCode } d]
       else []) := by
  have hmet : pathnameOf req.url ≠ "/metrics" := by
    intro hp
    rw [hp, routesLookup_metrics_eq] at hk
    exact Option.noConfusion hk
  simp [handleRequest, hm, hmet, hk]

/-- Branch reduction: POST with pathname `/echo` is delegated to the body
completion callback. -/
theorem handleRequest_echo (env : Env) (cfg : Config) (parse : String → Option Json)
    (fault : Bool) (now : String) (d : Nat) (req : Request)
    (hm : req.method = "POST") (hp : pathnameOf req.url = "/echo") :
    handleRequest env cfg parse fault now d req =
      echoEnd parse fault cfg.metricsEnabled now d securityHeaders
        "POST" "/echo" req.body := by
  simp [handleRequest, hm, hp, routesLookup_echo_eq]

/-- Branch reduction: a request that is neither OPTIONS nor GET and is not
POST `/echo` falls through to the 405 response, with no metric events. -/
theorem handleRequest_405 (env : Env) (cfg : Config) (parse : String → Option Json)
    (fault : Bool) (now : String) (d : Nat) (req : Request)
    (hopt : ¬ req.method = "OPTIONS") (hget : ¬ req.method = "GET")
    (hecho : ¬ (req.method = "POST" ∧ pathnameOf req.url = "/echo")) :
    handleRequest env cfg parse fault now d req =
      (sendError securityHeaders now 405 "Method Not Allowed"
        (some ("Method " ++ req.method ++ " is not allowed for this endpoint")), []) := by
  cases hk : routesLookup (pathnameOf req.url) <;>
    simp [handleRequest, hk, hopt, hget, hecho]

/-- Branch reduction: a GET whose pathname is not `/metrics` and not in the
route table falls through to the 404 response, with no metric events. -/
theorem handleRequest_404 (env : Env) (cfg : Config) (parse : String → Option Json)
    (fault : Bool) (now : String) (d : Nat) (req : Request)
    (hm : req.method = "GET") (hmet : pathnameOf req.url ≠ "/metrics")
    (hk : routesLookup (pathnameOf req.url) = none) :
    handleRequest env cfg parse fault now d req =
      (sendError securityHeaders now 404 "Not Found"
        (some ("The endpoint " ++ pathnameOf req.url ++ " does not exist")), []) := by
  simp [handleRequest, hm, hmet, hk]

/-- The query string is stripped when extracting the pathname: any request
target of the form `/ping?...` has pathname `/ping`. -/
theorem pathnameOf_ping_query (q : String) : pathnameOf ("/ping?" ++ q) = "/ping" := by
  cases q with
  | mk l =>
    show String.mk (pathChars (('/' :: 'p' :: 'i' :: 'n' :: 'g' :: '?' :: []) ++ l)) = "/ping"
    simp [pathChars]

/-- The echo completion callback writes either the 400 invalid-JSON error or a
200 success envelope carrying `echoData`. -/
theorem echoEnd_shape (parse : String → Option Json) (fault metricsOn : Bool)
    (now : String) (d : Nat) (hdrs : List (String × String))
    (method pathname body : String) :
    (echoEnd parse fault metricsOn now d hdrs method pathname body).fst
        = sendError hdrs now 400 "Bad Request" (some "Invalid JSON in request body") ∨
    ∃ j, (echoEnd parse fault metricsOn now d hdrs method pathname body).fst
        = sendSuccess hdrs now (echoData j now) 200 := by
  unfold echoEnd
  cases hpr : parse body with
  | none => exact Or.inl rfl
  | some j =>
    cases fault with
    | false => exact Or.inr ⟨j, rfl⟩
    | true => exact Or.inl rfl

/-- Every response the dispatcher produces keeps the security headers as a
prefix of its header list, and every JSON body it produces is one of the two
envelope shapes, sent with the JSON content type. -/
theorem handleRequest_shape (env : Env) (cfg : Config) (parse : String → Option Json)
    (fault : Bool) (now : String) (d : Nat) (req : Request) :
    (∃ rest, (handleRequest env cfg parse fault now d req).fst.headers
        = securityHeaders ++ rest) ∧
    (∀ e, (handleRequest env cfg parse fault now d req).fst.body = Body.json e →
      ((∃ dta, e = successEnvelope now dta) ∨ (∃ m det, e = errorEnvelope now m det)) ∧
      ("Content-Type", "application/json")
        ∈ (handleRequest env cfg parse fault now d req).fst.headers) := by
  by_cases hopt : req.method = "OPTIONS"
  · rw [handleRequest_options env cfg parse fault now d req hopt]
    exact ⟨⟨[], rfl⟩, fun e he => Body.noConfusion he⟩
  by_cases hmet : req.method = "GET" ∧ pathnameOf req.url = "/metrics"
  · rw [handleRequest_metrics env cfg parse fault now d req hmet.1 hmet.2]
    cases hEn : cfg.metricsEnabled with
    | false => exact ⟨⟨[], rfl⟩, fun e he => Body.noConfusion he⟩
    | true => exact ⟨⟨_, rfl⟩, fun e he => Body.noConfusion he⟩
  have fallbackShape :
      ∀ resp : Response,
        (resp = sendError securityHeaders now 400 "Bad Request"
            (some "Invalid JSON in request body") ∨
         (∃ j, resp = sendSuccess securityHeaders now (echoData j now) 200) ∨
         resp = sendError securityHeaders now 405 "Method Not Allowed"
            (some ("Method " ++ req.method ++ " is not allowed for this endpoint")) ∨
         resp = sendError securityHeaders now 404 "Not Found"
            (some ("The endpoint " ++ pathnameOf req.url ++ " does not exist"))) →
        (∃ rest, resp.headers = securityHeaders ++ rest) ∧
        (∀ e, resp.body = Body.json e →
          ((∃ dta, e = successEnvelope now dta) ∨ (∃ m det, e = errorEnvelope now m det)) ∧
          ("Content-Type", "application/json") ∈ resp.headers) := by
    rintro resp (rfl | ⟨j, rfl⟩ | rfl | rfl) <;>
      refine ⟨⟨_, rfl⟩, fun e he => ?_⟩ <;>
      · rw [show e = _ from (Body.json.inj he).symm]
        constructor
        · first
            | exact Or.inr ⟨_, _, rfl⟩
            | exact Or.inl ⟨_, rfl⟩
        · simp [sendError, sendSuccess]
  cases hk : routesLookup (pathnameOf req.url) with
  | some k =>
    by_cases hget : req.method = "GET"
    · rw [handleRequest_routed env cfg parse fault now d req k hget hk]
      constructor
      · rcases runHandler_headers k env now securityHeaders with h | h <;> exact ⟨_, h⟩
      · intro e he
        obtain ⟨⟨dta, hdta⟩, hh⟩ := runHandler_json_body k env now securityHeaders e he
        refine ⟨Or.inl ⟨dta, hdta⟩, ?_⟩
        rw [hh]
        simp
    · have hecho : ¬ (req.method = "POST" ∧ pathnameOf req.url = "/echo") := by
        rintro ⟨_, hpath⟩
        rw [hpath, routesLookup_echo_eq] at hk
        exact Option.noConfusion hk
      rw [handleRequest_405 env cfg parse fault now d req hopt hget hecho]
      exact fallbackShape _ (Or.inr (Or.inr (Or.inl rfl)))
  | none =>
    by_cases hget : req.method = "GET"
    · have hmet' : pathnameOf req.url ≠ "/metrics" := fun hp => hmet ⟨hget, hp⟩
      rw [handleRequest_404 env cfg parse fault now d req hget hmet' hk]
      exact fallbackShape _ (Or.inr (Or.inr (Or.inr rfl)))
    · by_cases hecho : req.method = "POST" ∧ pathnameOf req.url = "/echo"
      · rw [handleRequest_echo env cfg parse fault now d req hecho.1 hecho.2]
        rcases echoEnd_shape parse fault cfg.metricsEnabled now d securityHeaders
          "POST" "/echo" req.body with h | ⟨j, h⟩
        · exact fallbackShape _ (by rw [h]; exact Or.inl rfl)
        · exact fallbackShape _ (by rw [h]; exact Or.inr (Or.inl ⟨j, rfl⟩))
      · rw [handleRequest_405 env cfg parse fault now d req hopt hget hecho]
        exact fallbackShape _ (Or.inr (Or.inr (Or.inl rfl)))

/-- The counter value over concatenated event lists adds up. -/
theorem countInc_append (l : MetricLabels) (a b : List MetricEvent) :
    countInc l (a ++ b) = countInc l a + countInc l b := by
  induction a with
  | nil => simp [countInc]
  | cons e es ih => cases e <;> simp [countInc, ih, Nat.add_assoc]

/-- Events over a concatenated request sequence are the concatenated events. -/
theorem processAll_append (env : Env) (cfg : Config) (parse : String → Option Json)
    (fault : Bool) (now : String) (d : Nat) (rs ts : List Request) :
    processAll env cfg parse fault now d (rs ++ ts) =
      processAll env cfg parse fault now d rs ++ processAll env cfg parse fault now d ts := by
  induction rs with
  | nil => rfl
  | cons r rs ih => simp [processAll, ih]

/-! ### Claim theorems -/

/-- Claim C2: for a request that is not OPTIONS, does not match GET /metrics,
does not match a route-table entry under GET, and is not POST /echo — if the
method is not GET the dispatcher responds 405 with an error envelope whose
details names the rejected method (whatever the pathname), and otherwise (GET
with no matching pathname) it responds 404 with an error envelope whose
details names the missing pathname.  Neither outcome records metric events. -/
theorem fallback_405_404 (env : Env) (cfg : Config) (parse : String → Option Json)
    (fault : Bool) (now : String) (d : Nat) (req : Request)
    (hopt : req.method ≠ "OPTIONS")
    (hmet : ¬ (req.method = "GET" ∧ pathnameOf req.url = "/metrics"))
    (hroute : ¬ ((routesLookup (pathnameOf req.url)).isSome ∧ req.method = "GET"))
    (hecho : ¬ (req.method = "POST" ∧ pathnameOf req.url = "/echo")) :
    (req.method ≠ "GET" →
      handleRequest env cfg parse fault now d req =
        (sendError securityHeaders now 405 "Method Not Allowed"
          (some ("Method " ++ req.method ++ " is not allowed for this endpoint")), [])) ∧
    (req.method = "GET" →
      handleRequest env cfg parse fault now d req =
        (sendError securityHeaders now 404 "Not Found"
          (some ("The endpoint " ++ pathnameOf req.url ++ " does not exist")), [])) := by
  constructor
  · intro hget
    exact handleRequest_405 env cfg parse fault now d req hopt hget hecho
  · intro hget
    have hmet' : pathnameOf req.url ≠ "/metrics" := fun hp => hmet ⟨hget, hp⟩
    have hk : routesLookup (pathnameOf req.url) = none := by
      cases hk : routesLookup (pathnameOf req.url) with
      | none => rfl
      | some k => exact absurd ⟨by rw [hk]; rfl, hget⟩ hroute
    exact handleRequest_404 env cfg parse fault now d req hget hmet' hk

/-- Witness for claim C2's theorem: DELETE on a registered path is rejected
405 naming DELETE; GET on an unknown path is rejected 404 naming the path. -/
theorem fallback_405_404_witness :
    (handleRequest sampleEnv sampleCfg (fun _ => none) false "T" 5
        { method := "DELETE", url := "/ping", body := "" }).fst
      = sendError securityHeaders "T" 405 "Method Not Allowed"
          (some "Method DELETE is not allowed for this endpoint") ∧
    (handleRequest sampleEnv sampleCfg (fun _ => none) false "T" 5
        { method := "GET", url := "/nope", body := "" }).fst
      = sendError securityHeaders "T" 404 "Not Found"
          (some "The endpoint /nope does not exist") := by
  constructor
  · rw [((fallback_405_404 sampleEnv sampleCfg (fun _ => none) false "T" 5
      { method := "DELETE", url := "/ping", body := "" }
      (by decide) (by decide) (by decide) (by decide)).1 (by decide))]
    rfl
  · rw [((fallback_405_404 sampleEnv sampleCfg (fun _ => none) false "T" 5
      { method := "GET", url := "/nope", body := "" }
      (by decide) (by decide) (by decide) (by decide)).2 (by decide))]
    rfl

/-- Claim C1: for POST /echo, if the body parses as JSON the dispatcher
responds 200 with a success envelope whose data has `received` deep-equal to
the parsed body and message "Echo successful"; if parsing fails it responds
400 with details "Invalid JSON in request body"; the status is always 200 or
400 — a malformed body can never produce a 500. -/
theorem echo_parse_success_and_failure (env : Env) (cfg : Config)
    (parse : String → Option Json) (fault : Bool) (now : String) (d : Nat) (req : Request)
    (hm : req.method = "POST") (hp : pathnameOf req.url = "/echo") :
    (∀ j, parse req.body = some j → fault = false →
      (handleRequest env cfg parse fault now d req).fst
          = sendSuccess securityHeaders now (echoData j now) 200 ∧
        (echoData j now).lookupField "received" = some j ∧
        (echoData j now).lookupField "message" = some (Json.str "Echo successful")) ∧
    (parse req.body = none →
      (handleRequest env cfg parse fault now d req).fst
        = sendError securityHeaders now 400 "Bad Request"
            (some "Invalid JSON in request body")) ∧
    ((handleRequest env cfg parse fault now d req).fst.statusCode = 200 ∨
     (handleRequest env cfg parse fault now d req).fst.statusCode = 400) := by
  rw [handleRequest_echo env cfg parse fault now d req hm hp]
  refine ⟨?_, ?_, ?_⟩
  · intro j hj hf
    subst hf
    refine ⟨by simp [echoEnd, hj], ?_, ?_⟩ <;>
      simp [Json.lookupField, echoData, List.find?]
  · intro hnone
    simp [echoEnd, hnone]
  · unfold echoEnd
    cases hpr : parse req.body with
    | none => simp [sendError]
    | some j => cases fault <;> simp [sendError, sendSuccess]

/-- Witness for claim C1's theorem: a body parsing to the number 1 echoes
back 200 with it under `received`; a non-parsing body yields the 400 error. -/
theorem echo_parse_success_and_failure_witness :
    ((handleRequest sampleEnv sampleCfg (fun _ => some (Json.num 1)) false "T" 5
        { method := "POST", url := "/echo", body := "1" }).fst
      = sendSuccess securityHeaders "T" (echoData (Json.num 1) "T") 200) ∧
    ((handleRequest sampleEnv sampleCfg (fun _ => none) false "T" 5
        { method := "POST", url := "/echo", body := "not-json" }).fst
      = sendError securityHeaders "T" 400 "Bad Request"
          (some "Invalid JSON in request body")) := by
  constructor
  · exact (((echo_parse_success_and_failure sampleEnv sampleCfg
      (fun _ => some (Json.num 1)) false "T" 5
      { method := "POST", url := "/echo", body := "1" } rfl rfl).1
      (Json.num 1) rfl rfl)).1
  · exact ((echo_parse_success_and_failure sampleEnv sampleCfg
      (fun _ => none) false "T" 5
      { method := "POST", url := "/echo", body := "not-json" } rfl rfl).2.1 rfl)

/-- Claim C10: the whole POST /echo completion callback is one try/catch whose
catch responds 400 "Bad Request" / "Invalid JSON in request body", so an
exception raised after a successful parse (modelled by the fault flag covering
the response write, logging and metric calls) produces that same 400 response
with no metric events; the echo completion path only ever produces status 200
or 400 and never reaches the dispatcher's top-level 500 boundary. -/
theorem echo_callback_catch_all_400 (env : Env) (cfg : Config)
    (parse : String → Option Json) (fault : Bool) (now : String) (d : Nat) (req : Request)
    (hm : req.method = "POST") (hp : pathnameOf req.url = "/echo") :
    (∀ j, parse req.body = some j → fault = true →
      handleRequest env cfg parse fault now d req =
        (sendError securityHeaders now 400 "Bad Request"
          (some "Invalid JSON in request body"), [])) ∧
    ((handleRequest env cfg parse fault now d req).fst.statusCode = 200 ∨
     (handleRequest env cfg parse fault now d req).fst.statusCode = 400) ∧
    (handleRequest env cfg parse fault now d req).fst.statusCode ≠ 500 := by
  rw [handleRequest_echo env cfg parse fault now d req hm hp]
  have hdisj : ((echoEnd parse fault cfg.metricsEnabled now d securityHeaders
        "POST" "/echo" req.body).fst.statusCode = 200 ∨
      (echoEnd parse fault cfg.metricsEnabled now d securityHeaders
        "POST" "/echo" req.body).fst.statusCode = 400) := by
    unfold echoEnd
    cases hpr : parse req.body with
    | none => simp [sendError]
    | some j => cases fault <;> simp [sendError, sendSuccess]
  refine ⟨?_, hdisj, ?_⟩
  · intro j hj hf
    subst hf
    simp [echoEnd, hj]
  · rcases hdisj with h | h <;> simp [h]

/-- Witness for claim C10's theorem: with a successfully parsed body and an
exception injected after the parse, the callback responds with the 400
invalid-JSON error and records nothing. -/
theorem echo_callback_catch_all_400_witness :
    handleRequest sampleEnv sampleCfg (fun _ => some (Json.str "ok")) true "T" 5
        { method := "POST", url := "/echo", body := "\x22ok\x22" } =
      (sendError securityHeaders "T" 400 "Bad Request"
        (some "Invalid JSON in request body"), []) := by
  exact (echo_callback_catch_all_400 sampleEnv sampleCfg
    (fun _ => some (Json.str "ok")) true "T" 5
    { method := "POST", url := "/echo", body := "\x22ok\x22" } rfl rfl).1
    (Json.str "ok") rfl rfl

/-- Claim C7: route matching uses the exact pathname with the query stripped
and no trailing-slash normalization — GET `/ping?q` returns 200 with literal
text body `pong` and content-type `text/plain` for every query string `q`,
while GET `/ping/` misses the route table and falls through to 404. -/
theorem ping_query_and_trailing_slash (env : Env) (cfg : Config)
    (parse : String → Option Json) (fault : Bool) (now : String) (d : Nat)
    (q b b' : String) :
    ((handleRequest env cfg parse fault now d
        { method := "GET", url := "/ping?" ++ q, body := b }).fst
      = { statusCode := 200,
          headers := securityHeaders ++ [("Content-Type", "text/plain")],
          body := Body.text "pong" }) ∧
    ((handleRequest env cfg parse fault now d
        { method := "GET", url := "/ping/", body := b' }).fst
      = sendError securityHeaders now 404 "Not Found"
          (some "The endpoint /ping/ does not exist")) := by
  constructor
  · have hk : routesLookup (pathnameOf ("/ping?" ++ q)) = some RouteKey.ping := by
      rw [pathnameOf_ping_query]
      rfl
    rw [handleRequest_routed env cfg parse fault now d
      { method := "GET", url := "/ping?" ++ q, body := b } RouteKey.ping rfl hk]
    rfl
  · rw [handleRequest_404 env cfg parse fault now d
      { method := "GET", url := "/ping/", body := b' } rfl
      (show pathnameOf "/ping/" ≠ "/metrics" by decide) rfl]
    rfl

/-- Claim C6, amended: the route table's keys are exactly `/`, `/ping`,
`/healthz`, `/info` and `/version` — `/echo` is not a route-table entry (POST
`/echo` is handled inline by the dispatcher) — and GET `/version` dispatches to
a registered handler that responds 200 with a success envelope whose data is
exactly the object {version, name, environment}. -/
theorem route_table_contents_and_version (env : Env) (cfg : Config)
    (parse : String → Option Json) (fault : Bool) (now : String) (d : Nat) (b : String) :
    routes.map (fun entry => entry.fst) = ["/", "/ping", "/healthz", "/info", "/version"] ∧
    routesLookup "/version" = some RouteKey.version ∧
    (handleRequest env cfg parse fault now d
        { method := "GET", url := "/version", body := b }).fst
      = sendSuccess securityHeaders now
          (Json.obj [("version", Json.str (appVersion env)),
                     ("name", Json.str "learn-node"),
                     ("environment", Json.str (appEnvironment env))]) 200 := by
  exact ⟨rfl, rfl, rfl⟩

/-- Counterexample to claim C6 as stated: the route table has no entry for
`/echo`; looking the path up in the table yields nothing. -/
theorem route_table_missing_echo : routesLookup "/echo" = none := rfl

/-- Claim C9: the claimed graceful-shutdown transition does not exist in the
code — neither main.ts nor main.js registers a listener for SIGTERM (or
SIGINT), so on a termination signal the default disposition terminates the
process with no draining phase, no grace timer, and no exit-code-0 path. -/
theorem no_signal_handlers_installed :
    handlesSignal "SIGTERM" = false ∧ handlesSignal "SIGINT" = false := by
  exact ⟨rfl, rfl⟩

/-- Claim C4: every JSON response the dispatcher produces is built by one of
the two envelope builders — a success envelope `{success: true, data,
timestamp}` with no message and no details, or an error envelope
`{success: false, message, details, timestamp}` with no data — carries the
`Content-Type: application/json` header, and stamps the write-time clock, so
data is present iff success and message (and details) are present iff not
success. -/
theorem envelope_builders_shape (env : Env) (cfg : Config) (parse : String → Option Json)
    (fault : Bool) (now : String) (d : Nat) (req : Request) (e : ApiResponse)
    (hb : (handleRequest env cfg parse fault now d req).fst.body = Body.json e) :
    ((∃ dta, e = successEnvelope now dta) ∨ (∃ m det, e = errorEnvelope now m det)) ∧
    ("Content-Type", "application/json")
      ∈ (handleRequest env cfg parse fault now d req).fst.headers ∧
    (e.data.isSome ↔ e.success = true) ∧
    (e.message.isSome ↔ e.success = false) ∧
    (e.details.isSome ↔ e.success = false) ∧
    e.timestamp = now := by
  obtain ⟨hcls, hct⟩ := (handleRequest_shape env cfg parse fault now d req).2 e hb
  refine ⟨hcls, hct, ?_, ?_, ?_, ?_⟩ <;>
    rcases hcls with ⟨dta, rfl⟩ | ⟨m, det, rfl⟩ <;>
      simp [successEnvelope, errorEnvelope]

/-- Witness for claim C4's theorem: the GET /version response body is the
success envelope around `versionData`, sent with the JSON content type, with
data present and message absent. -/
theorem envelope_builders_shape_witness :
    ("Content-Type", "application/json")
      ∈ (handleRequest sampleEnv sampleCfg (fun _ => none) false "T" 5
          { method := "GET", url := "/version", body := "" }).fst.headers ∧
    ((successEnvelope "T" (versionData sampleEnv)).data.isSome
      ↔ (successEnvelope "T" (versionData sampleEnv)).success = true) := by
  have h := envelope_builders_shape sampleEnv sampleCfg (fun _ => none) false "T" 5
    { method := "GET", url := "/version", body := "" }
    (successEnvelope "T" (versionData sampleEnv)) rfl
  exact ⟨h.2.1, h.2.2.1⟩

/-- Claim C5: the three fixed security headers are set before any dispatch
decision, so on every response they form a prefix of the header list — in
particular on OPTIONS responses, which additionally are 204 with an empty
body and carry exactly the security headers. -/
theorem security_headers_always_present (env : Env) (cfg : Config)
    (parse : String → Option Json) (fault : Bool) (now : String) (d : Nat)
    (req : Request) :
    (∃ rest, (handleRequest env cfg parse fault now d req).fst.headers
        = securityHeaders ++ rest) ∧
    (req.method = "OPTIONS" →
      (handleRequest env cfg parse fault now d req).fst.statusCode = 204 ∧
      (handleRequest env cfg parse fault now d req).fst.body = Body.empty ∧
      (handleRequest env cfg parse fault now d req).fst.headers = securityHeaders) := by
  refine ⟨(handleRequest_shape env cfg parse fault now d req).1, ?_⟩
  intro hopt
  rw [handleRequest_options env cfg parse fault now d req hopt]
  exact ⟨rfl, rfl, rfl⟩

/-- Witness for claim C5's theorem: an OPTIONS request gets 204, no body, and
the security headers. -/
theorem security_headers_always_present_witness :
    (handleRequest sampleEnv sampleCfg (fun _ => none) false "T" 5
        { method := "OPTIONS", url := "/", body := "" }).fst.statusCode = 204 ∧
    (handleRequest sampleEnv sampleCfg (fun _ => none) false "T" 5
        { method := "OPTIONS", url := "/", body := "" }).fst.body = Body.empty ∧
    (handleRequest sampleEnv sampleCfg (fun _ => none) false "T" 5
        { method := "OPTIONS", url := "/", body := "" }).fst.headers = securityHeaders := by
  exact (security_headers_always_present sampleEnv sampleCfg (fun _ => none) false "T" 5
    { method := "OPTIONS", url := "/", body := "" }).2 rfl

/-- Claim C8: metrics initialization is best-effort — a backend load failure
is caught and only disables the subsystem — and under GET /metrics the
disabled state responds 204 with an empty body recording no counters, while
the enabled state responds 200 with the registry's serialization under the
backend's content type. -/
theorem metrics_init_best_effort (env : Env) (load : Except String Unit)
    (mBody promCT : String) (parse : String → Option Json) (fault : Bool)
    (now : String) (d : Nat) (req : Request)
    (hm : req.method = "GET") (hp : pathnameOf req.url = "/metrics") :
    (∀ msg, load = Except.error msg →
      handleRequest env
          { metricsEnabled := initMetrics load, metricsBody := mBody,
            promContentType := promCT } parse fault now d req =
        ({ statusCode := 204, headers := securityHeaders, body := Body.empty }, [])) ∧
    (load = Except.ok () →
      handleRequest env
          { metricsEnabled := initMetrics load, metricsBody := mBody,
            promContentType := promCT } parse fault now d req =
        ({ statusCode := 200,
           headers := securityHeaders ++ [("Content-Type", promCT)],
           body := Body.text mBody },
         [MetricEvent.inc { method := "GET", route := "/metrics", status := 200 },
          MetricEvent.observe { method := "GET", route := "/metrics", status := 200 } d])) := by
  constructor
  · intro msg hload
    subst hload
    rw [handleRequest_metrics env _ parse fault now d req hm hp]
    rfl
  · intro hload
    subst hload
    rw [handleRequest_metrics env _ parse fault now d req hm hp]
    rfl

/-- Witness for claim C8's theorem: a failed backend load yields 204 and no
events on GET /metrics; a successful load yields 200 with the serialized
registry. -/
theorem metrics_init_best_effort_witness :
    handleRequest sampleEnv
        { metricsEnabled := initMetrics (Except.error "Cannot find module prom-client"),
          metricsBody := "# metrics", promContentType := "text/plain; version=0.0.4" }
        (fun _ => none) false "T" 5 { method := "GET", url := "/metrics", body := "" } =
      ({ statusCode := 204, headers := securityHeaders, body := Body.empty }, []) ∧
    handleRequest sampleEnv
        { metricsEnabled := initMetrics (Except.ok ()),
          metricsBody := "# metrics", promContentType := "text/plain; version=0.0.4" }
        (fun _ => none) false "T" 5 { method := "GET", url := "/metrics", body := "" } =
      ({ statusCode := 200,
         headers := securityHeaders ++ [("Content-Type", "text/plain; version=0.0.4")],
         body := Body.text "# metrics" },
       [MetricEvent.inc { method := "GET", route := "/metrics", status := 200 },
        MetricEvent.observe { method := "GET", route := "/metrics", status := 200 } 5]) := by
  constructor
  · exact (metrics_init_best_effort sampleEnv (Except.error "Cannot find module prom-client")
      "# metrics" "text/plain; version=0.0.4" (fun _ => none) false "T" 5
      { method := "GET", url := "/metrics", body := "" } rfl rfl).1
      "Cannot find module prom-client" rfl
  · exact (metrics_init_best_effort sampleEnv (Except.ok ())
      "# metrics" "text/plain; version=0.0.4" (fun _ => none) false "T" 5
      { method := "GET", url := "/metrics", body := "" } rfl rfl).2 rfl

/-- Claim C3, amended: with the metrics subsystem enabled, exactly three
request outcomes record metrics — a route-table GET (labels {GET, pathname,
handler status}), GET /metrics itself, and a successful POST /echo — each
recording one counter increment and one duration observation with the same
labels; with the subsystem disabled no request records anything (the
`inc`/`observe` calls sit behind null-counter guards), and OPTIONS, echo
parse failures or callback faults, 405 and 404 outcomes record no events in
any state.  The aggregated counter is monotone: processing a further request
never decreases any label's count. -/
theorem metrics_recording_points (env : Env) (cfg : Config) (parse : String → Option Json)
    (fault : Bool) (now : String) (d : Nat) (req : Request) (l : MetricLabels)
    (rs : List Request) (tail : Request) :
    (∀ k, cfg.metricsEnabled = true → req.method = "GET" →
      routesLookup (pathnameOf req.url) = some k →
      (handleRequest env cfg parse fault now d req).snd =
        [MetricEvent.inc
           { method := "GET", route := pathnameOf req.url,
             status := (runHandler k env now securityHeaders).statusCode },
         MetricEvent.observe
           { method := "GET", route := pathnameOf req.url,
             status := (runHandler k env now securityHeaders).statusCode } d]) ∧
    (req.method = "GET" → pathnameOf req.url = "/metrics" → cfg.metricsEnabled = true →
      (handleRequest env cfg parse fault now d req).snd =
        [MetricEvent.inc { method := "GET", route := "/metrics", status := 200 },
         MetricEvent.observe { method := "GET", route := "/metrics", status := 200 } d]) ∧
    (∀ j, cfg.metricsEnabled = true → req.method = "POST" →
      pathnameOf req.url = "/echo" →
      parse req.body = some j → fault = false →
      (handleRequest env cfg parse fault now d req).snd =
        [MetricEvent.inc { method := "POST", route := "/echo", status := 200 },
         MetricEvent.observe { method := "POST", route := "/echo", status := 200 } d]) ∧
    (cfg.metricsEnabled = false →
      (handleRequest env cfg parse fault now d req).snd = []) ∧
    (req.method = "OPTIONS" → (handleRequest env cfg parse fault now d req).snd = []) ∧
    (req.method = "POST" → pathnameOf req.url = "/echo" →
      (parse req.body = none ∨ fault = true) →
      (handleRequest env cfg parse fault now d req).snd = []) ∧
    (req.method ≠ "OPTIONS" → req.method ≠ "GET" →
      ¬ (req.method = "POST" ∧ pathnameOf req.url = "/echo") →
      (handleRequest env cfg parse fault now d req).snd = []) ∧
    (req.method = "GET" → pathnameOf req.url ≠ "/metrics" →
      routesLookup (pathnameOf req.url) = none →
      (handleRequest env cfg parse fault now d req).snd = []) ∧
    countInc l (processAll env cfg parse fault now d rs) ≤
      countInc l (processAll env cfg parse fault now d (rs ++ [tail])) := by
  refine ⟨?_, ?_, ?_, ?_, ?_, ?_, ?_, ?_, ?_⟩
  · intro k hEn hm hk
    rw [handleRequest_routed env cfg parse fault now d req k hm hk, hEn]
    rfl
  · intro hm hp hEn
    rw [handleRequest_metrics env cfg parse fault now d req hm hp, hEn]
    rfl
  · intro j hEn hm hp hj hf
    subst hf
    rw [handleRequest_echo env cfg parse false now d req hm hp, hEn]
    simp [echoEnd, hj]
  · intro hEn
    by_cases hopt : req.method = "OPTIONS"
    · rw [handleRequest_options env cfg parse fault now d req hopt]
    by_cases hmet : req.method = "GET" ∧ pathnameOf req.url = "/metrics"
    · rw [handleRequest_metrics env cfg parse fault now d req hmet.1 hmet.2, hEn]
      rfl
    cases hk : routesLookup (pathnameOf req.url) with
    | some k =>
      by_cases hget : req.method = "GET"
      · rw [handleRequest_routed env cfg parse fault now d req k hget hk, hEn]
        rfl
      · have hecho : ¬ (req.method = "POST" ∧ pathnameOf req.url = "/echo") := by
          rintro ⟨_, hpath⟩
          rw [hpath, routesLookup_echo_eq] at hk
          exact Option.noConfusion hk
        rw [handleRequest_405 env cfg parse fault now d req hopt hget hecho]
    | none =>
      by_cases hget : req.method = "GET"
      · have hmet' : pathnameOf req.url ≠ "/metrics" := fun hp => hmet ⟨hget, hp⟩
        rw [handleRequest_404 env cfg parse fault now d req hget hmet' hk]
      · by_cases hecho : req.method = "POST" ∧ pathnameOf req.url = "/echo"
        · rw [handleRequest_echo env cfg parse fault now d req hecho.1 hecho.2, hEn]
          unfold echoEnd
          cases hpr : parse req.body with
          | none => rfl
          | some j => cases fault <;> rfl
        · rw [handleRequest_405 env cfg parse fault now d req hopt hget hecho]
  · intro hopt
    rw [handleRequest_options env cfg parse fault now d req hopt]
  · intro hm hp hbad
    rw [handleRequest_echo env cfg parse fault now d req hm hp]
    rcases hbad with hnone | hf
    · simp [echoEnd, hnone]
    · subst hf
      unfold echoEnd
      cases hpr : parse req.body <;> rfl
  · intro hopt hget hecho
    rw [handleRequest_405 env cfg parse fault now d req hopt hget hecho]
  · intro hm hmet hk
    rw [handleRequest_404 env cfg parse fault now d req hm hmet hk]
  · rw [processAll_append, countInc_append]
    exact Nat.le_add_right _ _

/-- Witness for claim C3's theorem: with metrics enabled, a routed GET /ping
records exactly one increment and one observation with labels
{GET, /ping, 200}; with metrics disabled the same request records nothing;
and a 404 GET records nothing even when enabled. -/
theorem metrics_recording_points_witness :
    (handleRequest sampleEnv sampleCfg (fun _ => none) false "T" 5
        { method := "GET", url := "/ping", body := "" }).snd =
      [MetricEvent.inc { method := "GET", route := "/ping", status := 200 },
       MetricEvent.observe { method := "GET", route := "/ping", status := 200 } 5] ∧
    (handleRequest sampleEnv sampleCfgDisabled (fun _ => none) false "T" 5
        { method := "GET", url := "/ping", body := "" }).snd = [] ∧
    (handleRequest sampleEnv sampleCfg (fun _ => none) false "T" 5
        { method := "GET", url := "/nowhere", body := "" }).snd = [] := by
  refine ⟨?_, ?_, ?_⟩
  · exact ((metrics_recording_points sampleEnv sampleCfg (fun _ => none) false "T" 5
      { method := "GET", url := "/ping", body := "" }
      { method := "GET", route := "/ping", status := 200 } []
      { method := "GET", url := "/ping", body := "" }).1 RouteKey.ping rfl rfl rfl)
  · exact ((metrics_recording_points sampleEnv sampleCfgDisabled (fun _ => none) false "T" 5
      { method := "GET", url := "/ping", body := "" }
      { method := "GET", route := "/ping", status := 200 } []
      { method := "GET", url := "/ping", body := "" }).2.2.2.1 rfl)
  · exact ((metrics_recording_points sampleEnv sampleCfg (fun _ => none) false "T" 5
      { method := "GET", url := "/nowhere", body := "" }
      { method := "GET", route := "/ping", status := 200 } []
      { method := "GET", url := "/ping", body := "" }).2.2.2.2.2.2.2.1 rfl
      (by decide) rfl)

/-- Counterexample to claim C3 as stated: with the metrics subsystem enabled,
a request that completes with a 404 (GET on an unregistered path) increments
nothing and observes nothing — not every completed request records metrics. -/
theorem metrics_not_recorded_on_404 :
    (handleRequest sampleEnv sampleCfg (fun _ => none) false "T" 5
        { method := "GET", url := "/nope", body := "" }).fst.statusCode = 404 ∧
    sampleCfg.metricsEnabled = true ∧
    (handleRequest sampleEnv sampleCfg (fun _ => none) false "T" 5
        { method := "GET", url := "/nope", body := "" }).snd = [] := by
  exact ⟨rfl, rfl, rfl⟩

end LearnNode
